import Mathlib

/-!
Shallow embedding of `nyaa/search.py`: the two query-compilation functions
`search_elastic` and `search_db`.  Each relevant phase of the two Python
functions (sort/order validation, quality filter resolution, category
resolution, visibility filtering, text tokenization, result windowing) is
embedded as an executable Lean definition, and the spec's claims are settled
as theorems about those definitions.

Python error channels are made explicit: `flask.abort(400)`/`abort(404)`
become `SearchError.abort400`/`abort404`, an uncaught dictionary lookup
failure becomes `SearchError.keyError`, a failed `getattr` becomes
`SearchError.attributeError`, and `shlex`'s "No closing quotation"
`ValueError` becomes `SearchError.valueError`.
-/

namespace Nyaa

/-- Explicit error outcomes of the Python code paths. -/
inductive SearchError
  | abort400
  | abort404
  | keyError
  | attributeError
  | valueError
  deriving DecidableEq, Repr

/-- Decidable equality for `Except`, so concrete runs of the embedded
functions can be checked by `decide`. -/
instance {ε α : Type} [DecidableEq ε] [DecidableEq α] :
    DecidableEq (Except ε α) := fun x y =>
  match x, y with
  | .error e, .error f =>
    if h : e = f then isTrue (by rw [h]) else isFalse (by simp [h])
  | .error _, .ok _ => isFalse (by simp)
  | .ok _, .error _ => isFalse (by simp)
  | .ok a, .ok b =>
    if h : a = b then isTrue (by rw [h]) else isFalse (by simp [h])

/-- A torrent-like record as described by the spec's data model: identity,
category ids and the six status flags (`search.py` reads these through the
elastic document fields resp. the `models.Torrent` columns/flag bitmask). -/
structure Record where
  id : Nat
  uploaderId : Nat
  mainCategoryId : Nat
  subCategoryId : Nat
  deleted : Bool
  hidden : Bool
  anonymous : Bool
  remake : Bool
  trusted : Bool
  complete : Bool
  deriving DecidableEq, Repr

namespace TorrentFlags

/-- Modelled from the spec: `models.TorrentFlags` is outside the provided
source (`search.py` only imports it); the spec fixes the flag bitset
{deleted, hidden, anonymous, remake, trusted, complete} but not the numeric
bit values, so a fixed assignment of distinct bits is chosen here.  None of
the theorems below depend on which distinct powers of two are used. -/
def ANONYMOUS : Nat := 1

/-- Modelled from the spec: see `TorrentFlags.ANONYMOUS`. -/
def HIDDEN : Nat := 2

/-- Modelled from the spec: see `TorrentFlags.ANONYMOUS`. -/
def TRUSTED : Nat := 4

/-- Modelled from the spec: see `TorrentFlags.ANONYMOUS`. -/
def REMAKE : Nat := 8

/-- Modelled from the spec: see `TorrentFlags.ANONYMOUS`. -/
def COMPLETE : Nat := 16

/-- Modelled from the spec: see `TorrentFlags.ANONYMOUS`. -/
def DELETED : Nat := 32

end TorrentFlags

/-- The flag bitmask of a torrent whose six status flags are the given
booleans, with the bit assignment of `TorrentFlags`. -/
def torrentFlagsOf (deleted hidden anonymous remake trusted complete : Bool) :
    Nat :=
  (if anonymous then TorrentFlags.ANONYMOUS else 0) |||
  (if hidden then TorrentFlags.HIDDEN else 0) |||
  (if trusted then TorrentFlags.TRUSTED else 0) |||
  (if remake then TorrentFlags.REMAKE else 0) |||
  (if complete then TorrentFlags.COMPLETE else 0) |||
  (if deleted then TorrentFlags.DELETED else 0)

/-- The flag bitmask stored on a `models.Torrent` row, reconstructed from the
record's boolean flags with the bit assignment of `TorrentFlags`. -/
def Record.flags (r : Record) : Nat :=
  torrentFlagsOf r.deleted r.hidden r.anonymous r.remake r.trusted r.complete

/-- One elasticsearch filter clause as built by `search_elastic`
(`s.filter('term', field=value)`, plus the one `bool`-wrapped
`hidden=False | uploader_id=x` disjunction of lines 140-143). -/
inductive EsFilter
  | uploaderId (i : Nat)
  | deleted (b : Bool)
  | hidden (b : Bool)
  | anonymous (b : Bool)
  | hiddenOrUploader (i : Nat)
  | mainCategoryId (i : Nat)
  | subCategoryId (i : Nat)
  | remake (b : Bool)
  | trusted (b : Bool)
  | complete (b : Bool)
  deriving DecidableEq, Repr

/-- Whether a record satisfies one elasticsearch filter clause. -/
def EsFilter.eval : EsFilter → Record → Bool
  | .uploaderId i, r => r.uploaderId == i
  | .deleted b, r => r.deleted == b
  | .hidden b, r => r.hidden == b
  | .anonymous b, r => r.anonymous == b
  | .hiddenOrUploader i, r => (r.hidden == false) || (r.uploaderId == i)
  | .mainCategoryId i, r => r.mainCategoryId == i
  | .subCategoryId i, r => r.subCategoryId == i
  | .remake b, r => r.remake == b
  | .trusted b, r => r.trusted == b
  | .complete b, r => r.complete == b

/-- One SQLAlchemy filter clause as built by `search_db`.
`flagMaskFalse m` is `Torrent.flags.op('&')(m).is_(False)` (the masked bits
are all clear), `flagMaskIs m b` is `Torrent.flags.op('&')(m).is_(b)`
(`x IS FALSE` holds iff `x = 0`, `x IS TRUE` iff `x ≠ 0`), and
`hiddenMaskFalseOrUploader` is the disjunction of lines 285-286.
Full-text match clauses (`FullTextSearch(token, ..., NATURAL)`) carry their
token; their relevance semantics is backend-internal (spec §1 treats
full-text ranking internals as out of scope), so they evaluate to `true`. -/
inductive DbFilter
  | uploaderEq (i : Nat)
  | flagMaskFalse (mask : Nat)
  | flagMaskIs (mask : Nat) (b : Bool)
  | hiddenMaskFalseOrUploader (i : Nat)
  | mainCat (i : Nat)
  | mainAndSubCat (m s : Nat)
  | fullText (tok : String)
  deriving DecidableEq, Repr

/-- Whether a record satisfies one SQLAlchemy filter clause. -/
def DbFilter.eval : DbFilter → Record → Bool
  | .uploaderEq i, r => r.uploaderId == i
  | .flagMaskFalse mask, r => r.flags &&& mask == 0
  | .flagMaskIs mask b, r => (decide (r.flags &&& mask ≠ 0)) == b
  | .hiddenMaskFalseOrUploader i, r =>
      (r.flags &&& TorrentFlags.HIDDEN == 0) || (r.uploaderId == i)
  | .mainCat i, r => r.mainCategoryId == i
  | .mainAndSubCat m s, r => r.mainCategoryId == m && r.subCategoryId == s
  | .fullText _, _ => true

/-- A record is in the result set iff it satisfies every filter clause
(chained `s.filter(...)` resp. `query.filter(...)` calls are AND-combined). -/
def esEvalAll (fs : List EsFilter) (r : Record) : Bool :=
  fs.all (fun f => f.eval r)

/-- AND over the SQLAlchemy filter clauses. -/
def dbEvalAll (fs : List DbFilter) (r : Record) : Bool :=
  fs.all (fun f => f.eval r)

/-- The `same_user` flag as computed by both functions: `False`, unless
`logged_in_user` is set, in which case `user == logged_in_user.id`
(`user` was already resolved to an id, or is `None` in general view). -/
def sameUser (user loggedInUser : Option Nat) : Bool :=
  match loggedInUser with
  | some l =>
    match user with
    | some u => u == l
    | none => false
  | none => false

/-- The visibility filter clauses added by `search_elastic`
(lines 114-145): user view filters by uploader and, for non-admins, hides
deleted items, and hides hidden/anonymous items unless the viewer is the
profile owner on a non-RSS page; general view hides deleted items for
non-admins and hides hidden items, except that a logged-in non-RSS viewer
also sees their own hidden items. -/
def esVisibilityFilters (user loggedInUser : Option Nat) (admin rss : Bool) :
    List EsFilter :=
  match user with
  | some u =>
    [EsFilter.uploaderId u] ++
    (if admin then []
     else
       [EsFilter.deleted false] ++
       (if !(sameUser (some u) loggedInUser) || rss then
          [EsFilter.hidden false, EsFilter.anonymous false]
        else []))
  | none =>
    if admin then []
    else
      [EsFilter.deleted false] ++
      (match loggedInUser, rss with
       | some l, false => [EsFilter.hiddenOrUploader l]
       | _, _ => [EsFilter.hidden false])

/-- The visibility filter clauses added by `search_db` (lines 264-289),
using the flag bitmask tests of the SQL backend. -/
def dbVisibilityFilters (user loggedInUser : Option Nat) (admin rss : Bool) :
    List DbFilter :=
  match user with
  | some u =>
    [DbFilter.uploaderEq u] ++
    (if admin then []
     else
       [DbFilter.flagMaskFalse TorrentFlags.DELETED] ++
       (if !(sameUser (some u) loggedInUser) || rss then
          [DbFilter.flagMaskFalse (TorrentFlags.HIDDEN ||| TorrentFlags.ANONYMOUS)]
        else []))
  | none =>
    if admin then []
    else
      [DbFilter.flagMaskFalse TorrentFlags.DELETED] ++
      (match loggedInUser, rss with
       | some l, false => [DbFilter.hiddenMaskFalseOrUploader l]
       | _, _ => [DbFilter.flagMaskFalse TorrentFlags.HIDDEN])

/-- Python's `str.lower()`, character by character.  Every string the code
compares a lowercased parameter against is ASCII, for which this model is
exact. -/
def pyLower (s : String) : String :=
  String.mk (s.toList.map Char.toLower)

/-- Leading run of ASCII digits of a character list, and the rest. -/
def takeDigits : List Char → List Char × List Char
  | [] => ([], [])
  | c :: cs =>
    if c.isDigit then
      let (d, r) := takeDigits cs
      (c :: d, r)
    else ([], c :: cs)

/-- Numeric value of a digit run (`int(...)` on the regex group). -/
def digitsVal (l : List Char) : Nat :=
  l.foldl (fun a c => a * 10 + (c.toNat - 48)) 0

/-- Python's `int(...)` on a string of decimal digits (`None` models the
`ValueError` on anything else; the call sites only ever receive validated
digit strings). -/
def pyInt? (s : String) : Option Nat :=
  if !s.toList.isEmpty && s.toList.all Char.isDigit then
    some (digitsVal s.toList)
  else none

/-- The dictionary `es_sort_keys` of `search_elastic` (lines 24-31): request sort key to
elastic document field. -/
def esSortKeys : List (String × String) :=
  [("id", "id"), ("size", "filesize"), ("seeders", "seed_count"),
   ("leechers", "leech_count"), ("downloads", "download_count")]

/-- The `models.Torrent`/`models.Statistic` columns that `sort_keys` of
`search_db` (lines 188-195) maps request sort keys to. -/
inductive DbSortCol
  | torrentId
  | filesize
  | seedCount
  | leechCount
  | downloadCount
  deriving DecidableEq, Repr

/-- The dictionary `sort_keys` of `search_db` (lines 188-195). -/
def dbSortKeys : List (String × DbSortCol) :=
  [("id", DbSortCol.torrentId), ("size", DbSortCol.filesize),
   ("seeders", DbSortCol.seedCount), ("leechers", DbSortCol.leechCount),
   ("downloads", DbSortCol.downloadCount)]

/-- The dictionary `order_keys` (lines 39-42 resp. 202-205). -/
def orderKeys : List (String × String) :=
  [("desc", "desc"), ("asc", "asc")]

/-- The sort argument `search_elastic` passes to `s.sort(...)` (lines 33-55
and 163): validate `sort.lower()` (modelled by `pyLower`) against `es_sort_keys` but index the dict
with the original `sort` string (line 37, an uncaught `KeyError` when they
differ), validate `order.lower()`, force `order` (and the by-now unused
`sort` variable) on RSS without recomputing `es_sort` (lines 49-51), and
prefix `-` when the current `order` string equals `"desc"` (lines 53-55). -/
def searchElasticSort (sort order : String) (rss : Bool) :
    Except SearchError String :=
  if (esSortKeys.lookup (pyLower sort)).isNone then .error .abort400
  else
    match esSortKeys.lookup sort with
    | none => .error .keyError
    | some esSort =>
      if (orderKeys.lookup (pyLower order)).isNone then .error .abort400
      else
        let order := if rss then "desc" else order
        if order == "desc" then .ok ("-" ++ esSort) else .ok esSort

/-- Direction attribute of a SQLAlchemy column: a column object has
attributes named exactly `asc` and `desc`; `getattr` with any other name
raises `AttributeError`. -/
def columnOrderAttr (order : String) : Option Bool :=
  if order == "asc" then some false
  else if order == "desc" then some true
  else none

/-- The (column, is-descending) pair `search_db` orders by (lines 196-209,
250-253 and 310): validate `sort.lower()` but index `sort_keys` with the
original string (line 200, uncaught `KeyError` when they differ), validate
`order.lower()`, force `(id, desc)` on RSS (lines 251-253), then call
`getattr(sort, order)()` with the current `order` string (line 310). -/
def searchDbSort (sort order : String) (rss : Bool) :
    Except SearchError (DbSortCol × Bool) :=
  if (dbSortKeys.lookup (pyLower sort)).isNone then .error .abort400
  else
    match dbSortKeys.lookup sort with
    | none => .error .keyError
    | some col =>
      if (orderKeys.lookup (pyLower order)).isNone then .error .abort400
      else
        let col := if rss then DbSortCol.torrentId else col
        let order := if rss then "desc" else order
        match columnOrderAttr order with
        | none => .error .attributeError
        | some descending => .ok (col, descending)

/-- The `[from_idx, to_idx)` result window `search_elastic` slices
(lines 165-172).  `int(math.ceil(max_search_results / float(per_page)))` is
modelled as ceiling division on naturals; `Int` is used for the window
bounds because `(max_page - 1) * per_page` can be negative in Python when
`page < 1`. -/
def elasticWindow (page perPage maxSearchResults : Nat) (rss : Bool) :
    Int × Int :=
  if rss then (0, (perPage : Int))
  else
    let maxPage : Int :=
      min (page : Int) (((maxSearchResults + perPage - 1) / perPage : Nat) : Int)
    ((maxPage - 1) * (perPage : Int),
     min (maxSearchResults : Int) (maxPage * (perPage : Int)))

/-- The window formula stated by the spec (§4.5): `effectivePage =
min(page, ceil(maxResults/perPage))`, `from = (effectivePage-1)*perPage`,
`to = min(maxResults, effectivePage*perPage)`; `[0, perPage)` on RSS. -/
def specWindow (page perPage maxResults : Nat) (rss : Bool) : Int × Int :=
  if rss then (0, (perPage : Int))
  else
    let effectivePage : Int :=
      min (page : Int) (((maxResults + perPage - 1) / perPage : Nat) : Int)
    ((effectivePage - 1) * (perPage : Int),
     min (maxResults : Int) (effectivePage * (perPage : Int)))

/-- The list `quality_keys` of `search_elastic` (lines 58-63). -/
def qualityKeys : List String := ["0", "1", "2", "3"]

/-- The quality filter clauses `search_elastic` adds (lines 57-68 and
153-160): abort 400 unless `quality_filter.lower()` is one of the four
codes, convert the original string with `int(...)`, then map
0 to no clause, 1 to `remake=False`, 2 to `trusted=True`,
3 to `complete=True`. -/
def elasticQualityFilters (qualityFilter : String) :
    Except SearchError (List EsFilter) :=
  if !(qualityKeys.contains (pyLower qualityFilter)) then .error .abort400
  else
    match pyInt? qualityFilter with
    | none => .error .valueError
    | some q =>
      .ok (if q == 0 then []
           else if q == 1 then [EsFilter.remake false]
           else if q == 2 then [EsFilter.trusted true]
           else if q == 3 then [EsFilter.complete true]
           else [])

/-- The dictionary `filter_keys` of `search_db` (lines 211-216): quality code to an
optional (flag mask, value) pair. -/
def dbFilterKeys : List (String × Option (Nat × Bool)) :=
  [("0", none),
   ("1", some (TorrentFlags.REMAKE, false)),
   ("2", some (TorrentFlags.TRUSTED, true)),
   ("3", some (TorrentFlags.COMPLETE, true))]

/-- The quality filter clauses `search_db` adds (lines 211-221 and
297-298): `filter_keys.get(quality_filter.lower(), sentinel)` aborts 400 on
the sentinel; a `None` tuple adds no clause, otherwise
`Torrent.flags.op('&')(mask).is_(value)` is added. -/
def dbQualityFilters (qualityFilter : String) :
    Except SearchError (List DbFilter) :=
  match dbFilterKeys.lookup (pyLower qualityFilter) with
  | none => .error .abort400
  | some none => .ok []
  | some (some (mask, b)) => .ok [DbFilter.flagMaskIs mask b]

/-- The result of `re.match(r'^(\\d+)_(\\d+)$', category)` followed by `int(...)` on the two
groups (lines 76-81 resp. 234-239): `some (main_cat_id, sub_cat_id)` when the
string is digits, one underscore, digits; `none` otherwise. -/
def parseCategory (s : String) : Option (Nat × Nat) :=
  match takeDigits s.toList with
  | ([], _) => none
  | (d1, rest) =>
    match rest with
    | [] => none
    | c :: rest2 =>
      if c == Char.ofNat 95 then
        match takeDigits rest2 with
        | ([], _) => none
        | (d2, []) => some (digitsVal d1, digitsVal d2)
        | (_, _ :: _) => none
      else none

/-- The category filter a request resolves to: none, main id only, or
main and sub ids. -/
inductive CatFilter
  | nofilter
  | mainOnly (m : Nat)
  | mainSub (m s : Nat)
  deriving DecidableEq, Repr

/-- Category resolution in `search_elastic` (lines 70-91 and 147-151),
against a catalog given by `mainCat` (does a main category with this id
exist?) and `subCat` (does this (main, sub) id pair exist?): an empty
`category` string or `main_cat_id = 0` adds no filter; a malformed string
aborts 400; with `main_cat_id > 0`, a failed `SubCategory.by_category_ids`
resp. `MainCategory.by_id` lookup aborts 400; otherwise the filter clauses
of lines 147-151 result.  `mainCat`/`subCat` stand for the
`models.MainCategory`/`models.SubCategory` lookups, which live outside the
provided source. -/
def elasticResolveCategory (mainCat : Nat → Bool) (subCat : Nat → Nat → Bool)
    (category : String) : Except SearchError CatFilter :=
  if category == "" then .ok .nofilter
  else
    match parseCategory category with
    | none => .error .abort400
    | some (mainCatId, subCatId) =>
      if mainCatId > 0 then
        if subCatId > 0 then
          if subCat mainCatId subCatId then .ok (.mainSub mainCatId subCatId)
          else .error .abort400
        else
          if mainCat mainCatId then .ok (.mainOnly mainCatId)
          else .error .abort400
      else .ok .nofilter

/-- Category resolution in `search_db` (lines 229-248 and 291-295).  The
lookup results are computed as in `search_elastic`, but the only abort in
this branch is line 247's `if not category: flask.abort(400)`, which tests
the original `category` string - not the resolved `main_category` /
`sub_category` objects - and that string is non-empty on every path that
reaches it; a failed catalog lookup therefore leaves both objects `None`
and lines 291-295 add no filter clause. -/
def dbResolveCategory (mainCat : Nat → Bool) (subCat : Nat → Nat → Bool)
    (category : String) : Except SearchError CatFilter :=
  if category == "" then .ok .nofilter
  else
    match parseCategory category with
    | none => .error .abort400
    | some (mainCatId, subCatId) =>
      if mainCatId > 0 then
        let subCategory :=
          if subCatId > 0 then
            (if subCat mainCatId subCatId then some (mainCatId, subCatId)
             else none)
          else none
        let mainCategory :=
          if subCatId > 0 then none
          else (if mainCat mainCatId then some mainCatId else none)
        if category == "" then .error .abort400
        else
          match mainCategory, subCategory with
          | some m, _ => .ok (.mainOnly m)
          | none, some (m, sb) => .ok (.mainSub m sb)
          | none, none => .ok .nofilter
      else .ok .nofilter

/-- Whitespace characters of `shlex`. -/
def shlexWhitespace (c : Char) : Bool :=
  c == ' ' || c == Char.ofNat 9 || c == Char.ofNat 13 || c == Char.ofNat 10

/-- Quote characters of `shlex` (single and double quote). -/
def shlexQuote (c : Char) : Bool :=
  c == Char.ofNat 39 || c == '"'

/-- Lexer state of `shlex` in non-posix whitespace-split mode: between
tokens, inside an unquoted word, or inside a section opened by the given
quote character. -/
inductive ShlexState
  | ws
  | word
  | quoted (q : Char)

/-- One pass of `shlex.split(term, posix=False)` (used at line 301):
whitespace separates tokens; a quote character opening a token starts a
quoted section that ends at the matching quote, with both quotes kept in
the token (non-posix mode); a quote inside a word is an ordinary character;
an unterminated quoted section raises `ValueError` ("No closing
quotation"), modelled as `none`.  `tok` is the token built so far and `acc`
the emitted tokens. -/
def shlexRun : List Char → ShlexState → List Char → List (List Char) →
    Option (List (List Char))
  | [], .ws, _, acc => some acc
  | [], .word, tok, acc => some (acc ++ [tok])
  | [], .quoted _, _, _ => none
  | c :: cs, .ws, _, acc =>
    if shlexWhitespace c then shlexRun cs .ws [] acc
    else if shlexQuote c then shlexRun cs (.quoted c) [c] acc
    else shlexRun cs .word [c] acc
  | c :: cs, .word, tok, acc =>
    if shlexWhitespace c then shlexRun cs .ws [] (acc ++ [tok])
    else shlexRun cs .word (tok ++ [c]) acc
  | c :: cs, .quoted q, tok, acc =>
    if c == q then shlexRun cs .ws [] (acc ++ [tok ++ [c]])
    else shlexRun cs (.quoted q) (tok ++ [c]) acc

/-- The result of `shlex.split(term, posix=False)` as a list of strings. -/
def shlexSplitNonPosix (s : String) : Option (List String) :=
  (shlexRun s.toList ShlexState.ws [] []).map (List.map String.mk)

/-- The full-text filter clauses `search_db` adds (lines 259-262 and
300-304): nothing when `term` is empty; otherwise one
`FullTextSearch(item, ..., NATURAL)` clause per `shlex` token of length at
least 2, in token order, all AND-combined by the `query.filter` chain. -/
def dbTextFilters (term : String) : Option (List DbFilter) :=
  if term == "" then some []
  else
    (shlexSplitNonPosix term).map (fun toks =>
      (toks.filter (fun t => decide (t.length ≥ 2))).map DbFilter.fullText)

theorem torrentFlagsOf_mask_deleted :
    ∀ d h a rm t c : Bool,
      (torrentFlagsOf d h a rm t c &&& TorrentFlags.DELETED == 0) = !d := by
  decide

theorem torrentFlagsOf_mask_hidden :
    ∀ d h a rm t c : Bool,
      (torrentFlagsOf d h a rm t c &&& TorrentFlags.HIDDEN == 0) = !h := by
  decide

theorem torrentFlagsOf_mask_hidden_anonymous :
    ∀ d h a rm t c : Bool,
      (torrentFlagsOf d h a rm t c &&&
          (TorrentFlags.HIDDEN ||| TorrentFlags.ANONYMOUS) == 0) =
        (!h && !a) := by
  decide

theorem torrentFlagsOf_mask_is_remake :
    ∀ (b : Bool) (d h a rm t c : Bool),
      ((decide (torrentFlagsOf d h a rm t c &&& TorrentFlags.REMAKE ≠ 0)) == b) =
        (rm == b) := by
  decide

theorem torrentFlagsOf_mask_is_trusted :
    ∀ (b : Bool) (d h a rm t c : Bool),
      ((decide (torrentFlagsOf d h a rm t c &&& TorrentFlags.TRUSTED ≠ 0)) == b) =
        (t == b) := by
  decide

theorem torrentFlagsOf_mask_is_complete :
    ∀ (b : Bool) (d h a rm t c : Bool),
      ((decide (torrentFlagsOf d h a rm t c &&& TorrentFlags.COMPLETE ≠ 0)) == b) =
        (c == b) := by
  decide

theorem flags_mask_deleted (r : Record) :
    (r.flags &&& TorrentFlags.DELETED == 0) = !r.deleted :=
  torrentFlagsOf_mask_deleted r.deleted r.hidden r.anonymous r.remake r.trusted
    r.complete

theorem flags_mask_hidden (r : Record) :
    (r.flags &&& TorrentFlags.HIDDEN == 0) = !r.hidden :=
  torrentFlagsOf_mask_hidden r.deleted r.hidden r.anonymous r.remake r.trusted
    r.complete

theorem flags_mask_hidden_anonymous (r : Record) :
    (r.flags &&& (TorrentFlags.HIDDEN ||| TorrentFlags.ANONYMOUS) == 0) =
      (!r.hidden && !r.anonymous) :=
  torrentFlagsOf_mask_hidden_anonymous r.deleted r.hidden r.anonymous r.remake
    r.trusted r.complete

theorem flags_mask_is_remake (r : Record) (b : Bool) :
    ((decide (r.flags &&& TorrentFlags.REMAKE ≠ 0)) == b) = (r.remake == b) :=
  torrentFlagsOf_mask_is_remake b r.deleted r.hidden r.anonymous r.remake
    r.trusted r.complete

theorem flags_mask_is_trusted (r : Record) (b : Bool) :
    ((decide (r.flags &&& TorrentFlags.TRUSTED ≠ 0)) == b) = (r.trusted == b) :=
  torrentFlagsOf_mask_is_trusted b r.deleted r.hidden r.anonymous r.remake
    r.trusted r.complete

theorem flags_mask_is_complete (r : Record) (b : Bool) :
    ((decide (r.flags &&& TorrentFlags.COMPLETE ≠ 0)) == b) = (r.complete == b) :=
  torrentFlagsOf_mask_is_complete b r.deleted r.hidden r.anonymous r.remake
    r.trusted r.complete

/-- C2: for every fixed tuple (viewingUserId, loggedInUserId, isAdmin,
isRss), the visibility filter list compiled by `search_db` and the one
compiled by `search_elastic` are satisfied by exactly the same records. -/
theorem visibility_backend_equivalence (user loggedInUser : Option Nat)
    (admin rss : Bool) (r : Record) :
    esEvalAll (esVisibilityFilters user loggedInUser admin rss) r =
      dbEvalAll (dbVisibilityFilters user loggedInUser admin rss) r := by
  have hdel := flags_mask_deleted r
  have hhid := flags_mask_hidden r
  have hha := flags_mask_hidden_anonymous r
  cases user <;> cases loggedInUser <;> cases admin <;> cases rss <;>
    (simp [esVisibilityFilters, dbVisibilityFilters, esEvalAll, dbEvalAll,
       EsFilter.eval, DbFilter.eval, sameUser, hdel, hhid, hha];
     try (split <;>
       simp_all [Bool.and_assoc, Bool.and_comm, Bool.and_left_comm]))

/-- C1: false as stated for `search_elastic`. `search_db` under `rss=True`
does force the effective sort to (id, desc), but `search_elastic` computes
`es_sort = es_sort_keys[sort]` (line 37) before the RSS branch (lines
49-51) reassigns `sort`, and never recomputes it, so an RSS request with
`sort='seeders', order='asc'` is compiled with elastic sort key
`-seed_count` (the caller's key, descending) instead of `-id` - in direct
contradiction with the comment on line 48, "Only allow ID, desc if RSS". -/
theorem rss_elastic_sort_key_not_forced :
    searchElasticSort "seeders" "asc" true = .ok "-seed_count" ∧
    (Except.ok "-seed_count" : Except SearchError String) ≠ .ok "-id" ∧
    searchElasticSort "id" "asc" true = .ok "-id" ∧
    searchDbSort "seeders" "asc" true = .ok (DbSortCol.torrentId, true) := by
  refine ⟨by decide, by decide, by decide, by decide⟩

/-- C3: false as stated for `search_db`. `search_elastic` rejects an
unresolvable category pair (or main id) with a 400, but the corresponding
guard in `search_db` (line 247) tests the original non-empty `category`
string instead of the resolved objects and therefore never fires: with a
catalog that knows no categories, `'9_9'` and `'9_0'` are silently compiled
with no category filter instead of being rejected. -/
theorem db_unknown_category_not_rejected :
    elasticResolveCategory (fun _ => false) (fun _ _ => false) "9_9" =
      .error .abort400 ∧
    dbResolveCategory (fun _ => false) (fun _ _ => false) "9_9" =
      .ok .nofilter ∧
    elasticResolveCategory (fun _ => false) (fun _ _ => false) "9_0" =
      .error .abort400 ∧
    dbResolveCategory (fun _ => false) (fun _ _ => false) "9_0" =
      .ok .nofilter := by
  refine ⟨by decide, by decide, by decide, by decide⟩

/-- C4: profile view, non-admin, in both backends: the compiled visibility
predicate is `uploader = viewingUserId AND deleted = false`, with
`hidden = false AND anonymous = false` additionally required unless the
logged-in viewer is the profile owner and the request is not RSS. -/
theorem profile_view_visibility (viewing : Nat) (loggedInUser : Option Nat)
    (rss : Bool) (r : Record) :
    (esEvalAll (esVisibilityFilters (some viewing) loggedInUser false rss) r =
      (r.uploaderId == viewing && !r.deleted &&
        (if loggedInUser = some viewing ∧ rss = false then true
         else !r.hidden && !r.anonymous))) ∧
    (dbEvalAll (dbVisibilityFilters (some viewing) loggedInUser false rss) r =
      (r.uploaderId == viewing && !r.deleted &&
        (if loggedInUser = some viewing ∧ rss = false then true
         else !r.hidden && !r.anonymous))) := by
  have hdel := flags_mask_deleted r
  have hha := flags_mask_hidden_anonymous r
  cases loggedInUser with
  | none =>
    cases rss <;>
      simp [esVisibilityFilters, dbVisibilityFilters, esEvalAll, dbEvalAll,
        EsFilter.eval, DbFilter.eval, sameUser, hdel, hha, Bool.and_assoc]
  | some l =>
    rcases eq_or_ne l viewing with hl | hl
    · subst hl
      cases rss <;>
        simp [esVisibilityFilters, dbVisibilityFilters, esEvalAll, dbEvalAll,
          EsFilter.eval, DbFilter.eval, sameUser, hdel, hha, Bool.and_assoc]
    · cases rss <;>
        simp [esVisibilityFilters, dbVisibilityFilters, esEvalAll, dbEvalAll,
          EsFilter.eval, DbFilter.eval, sameUser, hdel, hha, hl,
          Ne.symm hl, Bool.and_assoc]

/-- C5: general view, non-admin, in both backends: the compiled visibility
predicate always requires `deleted = false`; a logged-in non-RSS viewer
gets the disjunction `hidden = false OR uploader = loggedInUserId`, every
other request (anonymous viewer or RSS) gets `hidden = false`. -/
theorem general_view_visibility (loggedInUser : Option Nat) (rss : Bool)
    (r : Record) :
    (esEvalAll (esVisibilityFilters none loggedInUser false rss) r =
      (!r.deleted &&
        (match loggedInUser, rss with
         | some l, false => !r.hidden || (r.uploaderId == l)
         | _, _ => !r.hidden))) ∧
    (dbEvalAll (dbVisibilityFilters none loggedInUser false rss) r =
      (!r.deleted &&
        (match loggedInUser, rss with
         | some l, false => !r.hidden || (r.uploaderId == l)
         | _, _ => !r.hidden))) := by
  have hdel := flags_mask_deleted r
  have hhid := flags_mask_hidden r
  cases loggedInUser <;> cases rss <;>
    simp [esVisibilityFilters, dbVisibilityFilters, esEvalAll, dbEvalAll,
      EsFilter.eval, DbFilter.eval, hdel, hhid]

/-- C6: index-backend pagination: for every non-RSS request the window is
`effectivePage = min(page, ceil(maxResults/perPage))`,
`from = (effectivePage-1)*perPage`,
`to = min(maxResults, effectivePage*perPage)`; with `maxResults=1000` and
`perPage=75`, `page=50` yields the same window as `page=14`, namely
`from=975, to=1000`; for RSS the window is `[0, perPage)`. -/
theorem elastic_window_spec (page perPage maxResults : Nat) (rss : Bool) :
    elasticWindow page perPage maxResults rss =
      specWindow page perPage maxResults rss ∧
    elasticWindow page perPage maxResults true = (0, (perPage : Int)) ∧
    elasticWindow 50 75 1000 false = (975, 1000) ∧
    elasticWindow 14 75 1000 false = (975, 1000) := by
  refine ⟨rfl, by simp [elasticWindow], by decide, by decide⟩

/-- C7: datastore-backend text search: a non-empty term is tokenized by
`shlex` (whitespace-separated, shell-style quoting respected) and the
AND-combined match clauses are exactly one `FullTextSearch` clause per
token of length at least 2, in order; shorter tokens contribute nothing.
In particular "foo bar" yields two match clauses and "a b" yields none. -/
theorem db_text_tokenization :
    (∀ (term : String) (toks : List String), term ≠ "" →
       shlexSplitNonPosix term = some toks →
       dbTextFilters term =
         some ((toks.filter (fun t => decide (t.length ≥ 2))).map
           DbFilter.fullText)) ∧
    shlexSplitNonPosix "foo bar" = some ["foo", "bar"] ∧
    dbTextFilters "foo bar" =
      some [DbFilter.fullText "foo", DbFilter.fullText "bar"] ∧
    shlexSplitNonPosix "a b" = some ["a", "b"] ∧
    dbTextFilters "a b" = some [] := by
  refine ⟨?_, by decide, by decide, by decide, by decide⟩
  intro term toks h1 h2
  simp [dbTextFilters, h1, h2]

/-- Witness for C7: the general tokenization statement applied to the
concrete term "ab c". -/
theorem db_text_tokenization_witness :
    dbTextFilters "ab c" =
      some ((["ab", "c"].filter (fun t => decide (t.length ≥ 2))).map
        DbFilter.fullText) :=
  db_text_tokenization.1 "ab c" ["ab", "c"] (by decide) (by decide)

/-- C8: quality filter resolution in both backends: an unknown code is
rejected with a 400; code 0 adds no clause, 1 adds `remake=false`, 2 adds
`trusted=true`, 3 adds `complete=true`, and the datastore backend's
flag-mask clauses accept exactly the records the index backend's boolean
clauses accept. -/
theorem quality_filter_resolution :
    (∀ q : String, qualityKeys.contains (pyLower q) = false →
       elasticQualityFilters q = .error .abort400 ∧
       dbQualityFilters q = .error .abort400) ∧
    elasticQualityFilters "0" = .ok [] ∧
    elasticQualityFilters "1" = .ok [EsFilter.remake false] ∧
    elasticQualityFilters "2" = .ok [EsFilter.trusted true] ∧
    elasticQualityFilters "3" = .ok [EsFilter.complete true] ∧
    dbQualityFilters "0" = .ok [] ∧
    dbQualityFilters "1" = .ok [DbFilter.flagMaskIs TorrentFlags.REMAKE false] ∧
    dbQualityFilters "2" = .ok [DbFilter.flagMaskIs TorrentFlags.TRUSTED true] ∧
    dbQualityFilters "3" =
      .ok [DbFilter.flagMaskIs TorrentFlags.COMPLETE true] ∧
    (∀ r : Record,
      DbFilter.eval (DbFilter.flagMaskIs TorrentFlags.REMAKE false) r =
        EsFilter.eval (EsFilter.remake false) r ∧
      DbFilter.eval (DbFilter.flagMaskIs TorrentFlags.TRUSTED true) r =
        EsFilter.eval (EsFilter.trusted true) r ∧
      DbFilter.eval (DbFilter.flagMaskIs TorrentFlags.COMPLETE true) r =
        EsFilter.eval (EsFilter.complete true) r) := by
  refine ⟨?_, by decide, by decide, by decide, by decide, by decide,
    by decide, by decide, by decide, ?_⟩
  · intro q h
    have h' := h
    simp only [qualityKeys, List.contains_cons, Bool.or_eq_false_iff,
      List.contains_nil] at h'
    constructor
    · unfold elasticQualityFilters
      rw [h]
      rfl
    · obtain ⟨e0, e1, e2, e3, -⟩ := h'
      simp [dbQualityFilters, dbFilterKeys, List.lookup, e0, e1, e2, e3]
  · intro r
    exact ⟨by simpa [DbFilter.eval, EsFilter.eval] using
        flags_mask_is_remake r false,
      by simpa [DbFilter.eval, EsFilter.eval] using flags_mask_is_trusted r true,
      by simpa [DbFilter.eval, EsFilter.eval] using
        flags_mask_is_complete r true⟩

/-- Witness for C8: the rejection branch applied to the unknown code "4". -/
theorem quality_filter_resolution_witness :
    elasticQualityFilters "4" = .error .abort400 ∧
    dbQualityFilters "4" = .error .abort400 :=
  quality_filter_resolution.1 "4" (by decide)

/-- C9: a sort parameter that is a valid key only after lowercasing passes
the lowercased validation check in both functions but is then used,
untransformed, to index the sort-key dictionary, so both calls end in an
uncaught `KeyError` rather than a 400 rejection or a valid query. -/
theorem sort_key_case_mismatch_keyerror (sort : String)
    (h1 : (esSortKeys.lookup (pyLower sort)).isSome = true)
    (h2 : esSortKeys.lookup sort = none)
    (h3 : (dbSortKeys.lookup (pyLower sort)).isSome = true)
    (h4 : dbSortKeys.lookup sort = none)
    (order : String) (rss : Bool) :
    searchElasticSort sort order rss = .error .keyError ∧
    searchDbSort sort order rss = .error .keyError := by
  obtain ⟨v, hv⟩ := Option.isSome_iff_exists.mp h1
  obtain ⟨w, hw⟩ := Option.isSome_iff_exists.mp h3
  constructor
  · simp [searchElasticSort, hv, h2]
  · simp [searchDbSort, hw, h4]

/-- Witness for C9: the sort parameter "ID". -/
theorem sort_key_case_mismatch_keyerror_witness :
    searchElasticSort "ID" "desc" false = .error .keyError ∧
    searchDbSort "ID" "desc" false = .error .keyError :=
  sort_key_case_mismatch_keyerror "ID" (by decide) (by decide) (by decide)
    (by decide) "desc" false

/-- C10: an order parameter equal to "desc" only after lowercasing passes
validation, but `search_elastic` compares the original string against
"desc" when deciding on the `-` prefix and so compiles an ascending sort
(contrast the genuine "desc" request), while `search_db` uses the original
string as the column attribute name, which raises `AttributeError`. -/
theorem order_case_mismatch (sort order fld : String) (col : DbSortCol)
    (hes : esSortKeys.lookup sort = some fld)
    (hdb : dbSortKeys.lookup sort = some col)
    (hlow : pyLower sort = sort)
    (h1 : pyLower order = "desc")
    (h2 : order ≠ "desc") :
    (orderKeys.lookup (pyLower order)).isSome = true ∧
    searchElasticSort sort order false = .ok fld ∧
    searchElasticSort sort "desc" false = .ok ("-" ++ fld) ∧
    searchDbSort sort order false = .error .attributeError := by
  have hasc : order ≠ "asc" := by
    intro he
    rw [he] at h1
    exact absurd h1 (by decide)
  refine ⟨by simp [h1, orderKeys], ?_, ?_, ?_⟩
  · simp [searchElasticSort, hlow, hes, h1, orderKeys, h2]
  · simp [searchElasticSort, hlow, hes, orderKeys,
      (by decide : pyLower "desc" = "desc")]
  · simp [searchDbSort, hlow, hdb, h1, orderKeys, columnOrderAttr, h2, hasc]

/-- Witness for C10: the order parameter "DESC" with sort key "id". -/
theorem order_case_mismatch_witness :
    searchElasticSort "id" "DESC" false = .ok "id" ∧
    searchElasticSort "id" "desc" false = .ok ("-" ++ "id") ∧
    searchDbSort "id" "DESC" false = .error .attributeError :=
  (order_case_mismatch "id" "DESC" "id" DbSortCol.torrentId (by decide)
    (by decide) (by decide) (by decide) (by decide)).2

end Nyaa
